import Mathlib

/-
Shallow embedding of src/FU_Hypervisor/fake_page.cpp.

Machine memory is modeled pointwise: guest memory is a function from
(cr3, virtual address) to bytes, shadow pages are identified by an
allocation id (the identity of the std::shared_ptr<Page>) and mapped to
their contents by a second function.  EPT page-table entries are keyed by
page frame number.  RtlCopyMemory calls become range overwrites of these
functions.  C machine integers are Nat; the only place signedness of `int`
matters (the extended-CPUID loop) is noted at its definition.
-/

set_option linter.unusedVariables false

namespace FuHv

/-- A byte of memory (UCHAR; values 0..255 in the C program). -/
abbrev Byte := Nat

/-- PAGE_SIZE: 4 KiB pages. -/
def PAGE_SIZE : Nat := 4096

/-- PAGE_ALIGN from the WDK: round an address down to its page base. -/
def PAGE_ALIGN (a : Nat) : Nat := a / PAGE_SIZE * PAGE_SIZE

/-- BYTE_OFFSET from the WDK: offset of an address within its page. -/
def BYTE_OFFSET (a : Nat) : Nat := a % PAGE_SIZE

/-- UtilPfnFromPa: page frame number of a physical address. -/
def UtilPfnFromPa (pa : Nat) : Nat := pa / PAGE_SIZE

/-- One EPT page-table entry (the fields fake_page.cpp touches).  The field
name physial_address keeps the source's spelling. -/
structure EptEntry where
  read_access : Bool
  write_access : Bool
  execute_access : Bool
  physial_address : Nat
deriving DecidableEq

/-- FakePageData from fake_page.cpp.  The std::shared_ptr<Page>
shadow_page_base_for_exec is modeled by the id of the allocated shadow
page (shared_ptr identity); original_bytes is the std::array<UCHAR, 32>
read at indices 0..31. -/
structure FakePageData where
  patch_address : Nat
  target_cr3 : Nat
  shadow_page_id : Nat
  pa_base_for_rw : Nat
  pa_base_for_exec : Nat
  original_bytes : Nat → Byte

/-- CR0 with the write-protect bit split out (the only bit the code edits). -/
structure Cr0 where
  wp : Bool
  other : Nat
deriving DecidableEq

/-- Observable EPT-maintenance effects, logged in program order: a write
through an EptGetEptPtEntry pointer, and UtilInveptGlobal. -/
inductive Event where
  | eptWrite (pfn : Nat)
  | invept
deriving DecidableEq, BEq

/-- Cpuinfo from fake_page.cpp.  index and ecx hold the 32-bit patterns of
the C ints; cpui is the 4-register CPUID result (eax, ebx, ecx, edx). -/
structure Cpuinfo where
  index : Nat
  ecx : Nat
  cpui : Nat × Nat × Nat × Nat
deriving DecidableEq

/-- Machine + engine state threaded through every operation.
mem is guest memory keyed by the CR3 under which an access runs; shadow
gives each allocated shadow page's bytes; shadowPa fixes the physical base
a shadow page gets at allocation (UtilPaFromVa of its kernel address);
paFromVa is the guest page-table translation per cr3; ept holds the EPT
page-table entries keyed by PFN.  cr3 is the live CR3 register,
guest_cr3 the VMCS guest-CR3 field (UtilVmRead(kGuestCr3)).
all_fp_data / last_fp_data / fault_va / mtf mirror SharedFakePageData and
ProcessorFakePageData.  shared_present models the shared_fp_data pointer
being non-null (FppIsFuActive).  assert_failed latches an NT_ASSERT /
NT_VERIFY contract violation.  trace logs EPT maintenance events. -/
structure State where
  mem : Nat → Nat → Byte
  shadow : Nat → Nat → Byte
  shadowPa : Nat → Nat
  paFromVa : Nat → Nat → Nat
  ept : Nat → EptEntry
  cr3 : Nat
  guest_cr3 : Nat
  cr0 : Cr0
  all_fp_data : List FakePageData
  next_page_id : Nat
  last_fp_data : Option FakePageData
  fault_va : Nat
  mtf : Bool
  shared_present : Bool
  assert_failed : Bool
  trace : List Event

/-- A single assignment through an EptGetEptPtEntry pointer for PFN k,
logged in the trace. -/
def updateEpt (s : State) (k : Nat) (f : EptEntry → EptEntry) : State :=
  { s with ept := fun k2 => if k2 = k then f (s.ept k2) else s.ept k2,
           trace := s.trace ++ [Event.eptWrite k] }

/-- UtilInveptGlobal: global invalidation of cached EPT translations. -/
def invept (s : State) : State := { s with trace := s.trace ++ [Event.invept] }

/-- RtlCopyMemory into guest memory: write len bytes from src into address
space c starting at dst. -/
def writeMemRange (m : Nat → Nat → Byte) (c dst : Nat) (src : Nat → Byte)
    (len : Nat) : Nat → Nat → Byte :=
  fun c2 a => if c2 = c ∧ dst ≤ a ∧ a < dst + len then src (a - dst) else m c2 a

/-- RtlCopyMemory into a shadow page: write len bytes from src into page
pid starting at offset dst. -/
def writeShadowRange (sh : Nat → Nat → Byte) (pid dst : Nat) (src : Nat → Byte)
    (len : Nat) : Nat → Nat → Byte :=
  fun p off => if p = pid ∧ dst ≤ off ∧ off < dst + len then src (off - dst) else sh p off

/-- FppIsFuActive: the shared data pointer is non-null. -/
def FppIsFuActive (s : State) : Bool := s.shared_present

/-- UtilPaFromVa under the currently loaded CR3. -/
def UtilPaFromVa (s : State) (va : Nat) : Nat := s.paFromVa s.cr3 va

/-- FppFindFakePageDataByPage: first entry whose page-aligned patch
address and target cr3 match (the C lambda over std::find_if). -/
def FppFindFakePageDataByPage (reg : List FakePageData) (guest_cr3 address : Nat) :
    Option FakePageData :=
  reg.find? (fun fp =>
    PAGE_ALIGN fp.patch_address == PAGE_ALIGN address && fp.target_cr3 == guest_cr3)

/-- FppFindFakePageDataByPPage: first entry whose pa_base_for_rw shares a
page frame with paddress. -/
def FppFindFakePageDataByPPage (reg : List FakePageData) (paddress : Nat) :
    Option FakePageData :=
  reg.find? (fun fp => fp.pa_base_for_rw >>> 12 == paddress >>> 12)

/-- FppSetMonitorTrapFlag: write the MTF bit of the processor-based
VM-execution controls. -/
def FppSetMonitorTrapFlag (s : State) (enable : Bool) : State :=
  { s with mtf := enable }

/-- FppSaveLastFakePageData.  NT_ASSERT(!processor_fp_data->last_fp_data)
is modeled by latching assert_failed when the slot is already occupied
(the release build then still overwrites the slot, as the C code does). -/
def FppSaveLastFakePageData (s : State) (fp : FakePageData) : State :=
  let s1 := if s.last_fp_data.isSome then { s with assert_failed := true } else s
  { s1 with last_fp_data := some fp }

/-- FppRestoreLastFakePageData.  NT_ASSERT(processor_fp_data->last_fp_data)
is modeled by latching assert_failed when the slot is empty; the slot is
cleared and its previous content returned. -/
def FppRestoreLastFakePageData (s : State) : State × Option FakePageData :=
  let fp := s.last_fp_data
  let s1 := if fp.isNone then { s with assert_failed := true } else s
  ({ s1 with last_fp_data := none }, fp)

/-- FppEnableFakePageForExec: deny read/write, point the entry at the exec
shadow page, restore CR3, invalidate globally. -/
def FppEnableFakePageForExec (s : State) (fp : FakePageData) : State :=
  let old_cr3 := s.cr3
  let s1 := { s with cr3 := fp.target_cr3 }
  let k := UtilPfnFromPa (UtilPaFromVa s1 fp.patch_address)
  let s2 := updateEpt s1 k (fun e => { e with write_access := false })
  let s3 := updateEpt s2 k (fun e => { e with read_access := false })
  let s4 := updateEpt s3 k (fun e => { e with physial_address := UtilPfnFromPa fp.pa_base_for_exec })
  let s5 := { s4 with cr3 := old_cr3 }
  invept s5

/-- FppEnableFakePageForRw (dead code in the source; kept for completeness):
grant r/w/x over the original page and invalidate. -/
def FppEnableFakePageForRw (s : State) (fp : FakePageData) : State :=
  let k := UtilPfnFromPa fp.pa_base_for_rw
  let s1 := updateEpt s k (fun e => { e with write_access := true })
  let s2 := updateEpt s1 k (fun e => { e with read_access := true })
  let s3 := updateEpt s2 k (fun e => { e with execute_access := true })
  let s4 := updateEpt s3 k (fun e => { e with physial_address := UtilPfnFromPa fp.pa_base_for_rw })
  invept s4

/-- FppDisableFakePage: grant read/write over the original page again,
restore CR3, invalidate globally. -/
def FppDisableFakePage (s : State) (fp : FakePageData) : State :=
  let old_cr3 := s.cr3
  let s1 := { s with cr3 := fp.target_cr3 }
  let page_base := PAGE_ALIGN fp.patch_address
  let pa_base := UtilPaFromVa s1 page_base
  let k := UtilPfnFromPa pa_base
  let s2 := updateEpt s1 k (fun e => { e with write_access := true })
  let s3 := updateEpt s2 k (fun e => { e with read_access := true })
  let s4 := updateEpt s3 k (fun e => { e with physial_address := UtilPfnFromPa pa_base })
  let s5 := { s4 with cr3 := old_cr3 }
  invept s5

/-- FpHandleMonitorTrapFlag.  NT_VERIFY(FppIsFuActive) latches
assert_failed when the engine is inactive; the pending entry is consumed,
the faulting byte is read under the entry's CR3 purely for logging (no
state change), ExecuteOnly is re-applied and MTF is cleared.  When the
slot is empty the C code dereferences a null pointer; the model stops
after latching assert_failed. -/
def FpHandleMonitorTrapFlag (s : State) : State :=
  let s0 := if FppIsFuActive s then s else { s with assert_failed := true }
  match FppRestoreLastFakePageData s0 with
  | (s1, none) => s1
  | (s1, some fp) =>
    let guest_cr3 := fp.target_cr3
    let vmm_cr3 := s1.cr3
    let s2 := { s1 with cr3 := guest_cr3 }
    let s3 := { s2 with cr3 := vmm_cr3 }
    let s4 := FppEnableFakePageForExec s3 fp
    FppSetMonitorTrapFlag s4 false

/-- EPT-violation exit qualification (the fields fake_page.cpp reads). -/
structure EptViolationQualification where
  read_access : Bool
  write_access : Bool
  execute_access : Bool
  ept_readable : Bool
  ept_writeable : Bool
  ept_executable : Bool
  caused_by_translation : Bool
deriving DecidableEq

/-- FpHandleEptViolation.  The two RtlCopyMemory calls of the resync
branch use `int len`; with the patch offset at most PAGE_SIZE - 32 both
lengths are non-negative and the Nat subtractions below agree with the C
arithmetic (beyond that offset the C code has a signed-underflow defect
that a Nat model cannot express). -/
def FpHandleEptViolation (s : State) (q : EptViolationQualification)
    (fault_va fault_pa : Nat) : State :=
  if !FppIsFuActive s then s else
  match FppFindFakePageDataByPPage s.all_fp_data fault_pa with
  | none => s
  | some fp =>
    let k := UtilPfnFromPa fp.pa_base_for_rw
    if !q.caused_by_translation then
      let s1 := updateEpt s k (fun e => { e with physial_address := UtilPfnFromPa fp.pa_base_for_rw })
      updateEpt s1 k (fun e => { e with execute_access := false })
    else
      let read_failure := q.read_access && !q.ept_readable
      let write_failure := q.write_access && !q.ept_writeable
      let execute_failure := q.execute_access && !q.ept_executable
      let s1 := updateEpt s k (fun e => { e with write_access := q.write_access })
      let s2 := updateEpt s1 k (fun e => { e with read_access := q.read_access || q.write_access })
      let s3 := updateEpt s2 k (fun e => { e with execute_access := q.execute_access })
      let s4 :=
        if write_failure || read_failure then
          updateEpt s3 k (fun e => { e with physial_address := UtilPfnFromPa fp.pa_base_for_rw })
        else
          let vmmcr3 := s3.cr3
          let sa := { s3 with cr3 := fp.target_cr3 }
          let len := fp.patch_address - PAGE_ALIGN fp.patch_address
          let sb := { sa with shadow := (writeShadowRange sa.shadow fp.shadow_page_id 0
                        (fun i => sa.mem sa.cr3 (PAGE_ALIGN fp.patch_address + i)) len) }
          let len2 := PAGE_SIZE - len - 32
          let sc := { sb with shadow := (writeShadowRange sb.shadow fp.shadow_page_id (PAGE_SIZE - len2)
                        (fun i => sb.mem sb.cr3 (fp.patch_address + 32 + i)) len2) }
          let sd := { sc with cr3 := vmmcr3 }
          updateEpt sd k (fun e => { e with physial_address := UtilPfnFromPa fp.pa_base_for_exec })
      if (s4.ept k).read_access && (s4.ept k).execute_access then
        let s5 := FppSetMonitorTrapFlag s4 true
        FppSaveLastFakePageData s5 fp
      else s4

/-- The 48-byte APIMON_CREATE_SHADOW_PARAMETERS record. -/
structure ApimonCreateShadowParameters where
  start_address : Nat
  original_byte_size : Nat
  original_bytes : Nat → Byte

/-- FppCreateFakePageData.  The RtlCopyMemory that reads the 48-byte
parameter block from the guest under the guest CR3 is modeled by taking
the already-decoded record as an argument; the CR3 switches around it and
around the page copy are kept.  std::make_shared<Page>() allocates the
page with id next_page_id, whose fixed physical base is shadowPa of
that id (UtilPaFromVa of its kernel address). -/
def FppCreateFakePageData (s : State) (params : ApimonCreateShadowParameters) :
    State × FakePageData :=
  let guest_cr3 := s.guest_cr3
  let vmm_cr3 := s.cr3
  let s1 := { s with cr3 := guest_cr3 }
  let page_base := PAGE_ALIGN params.start_address
  let pa_base := UtilPaFromVa s1 page_base
  let s2 := { s1 with cr3 := vmm_cr3 }
  match FppFindFakePageDataByPage s2.all_fp_data s2.guest_cr3 params.start_address with
  | some reusable =>
    let fp : FakePageData :=
      { patch_address := params.start_address
        target_cr3 := guest_cr3
        shadow_page_id := reusable.shadow_page_id
        pa_base_for_rw := pa_base
        pa_base_for_exec := s2.shadowPa reusable.shadow_page_id
        original_bytes := params.original_bytes }
    (s2, fp)
  | none =>
    let pid := s2.next_page_id
    let s3 := { s2 with next_page_id := pid + 1 }
    let s4 := { s3 with cr3 := guest_cr3 }
    let s5 := { s4 with shadow := (writeShadowRange s4.shadow pid 0
                  (fun i => s4.mem s4.cr3 (page_base + i)) PAGE_SIZE) }
    let s6 := { s5 with cr3 := vmm_cr3 }
    let fp : FakePageData :=
      { patch_address := params.start_address
        target_cr3 := guest_cr3
        shadow_page_id := pid
        pa_base_for_rw := pa_base
        pa_base_for_exec := s6.shadowPa pid
        original_bytes := params.original_bytes }
    (s6, fp)

/-- FpVmCallCreateFakePage: create an entry and push it onto the registry.
FppCreateFakePageData cannot return null (allocation failure bug-checks),
so the call always succeeds. -/
def FpVmCallCreateFakePage (s : State) (params : ApimonCreateShadowParameters) :
    State × Bool :=
  let r := FppCreateFakePageData s params
  ({ r.1 with all_fp_data := r.1.all_fp_data ++ [r.2] }, true)

/-- Loop body of FpVmCallEnableFakePages for one registry entry: skip
foreign address spaces, copy the 32 original bytes onto the live page
under the entry's CR3, restore CR3, then show the exec shadow page. -/
def FpVmCallEnableFakePagesBody (requester_cr3 vmm_cr3 : Nat) (s : State)
    (fp : FakePageData) : State :=
  if fp.target_cr3 ≠ requester_cr3 then s
  else
    let s1 := { s with cr3 := fp.target_cr3 }
    let s2 := { s1 with mem := writeMemRange s1.mem s1.cr3 fp.patch_address fp.original_bytes 32 }
    let s3 := { s2 with cr3 := vmm_cr3 }
    FppEnableFakePageForExec s3 fp

/-- FpVmCallEnableFakePages: with CR0.WP temporarily cleared, run the
loop body over the registry, then restore CR0. -/
def FpVmCallEnableFakePages (s : State) : State :=
  let requester_cr3 := s.guest_cr3
  let vmm_cr3 := s.cr3
  let cr0_old := s.cr0
  let s1 := { s with cr0 := { cr0_old with wp := false } }
  let s2 := s1.all_fp_data.foldl (FpVmCallEnableFakePagesBody requester_cr3 vmm_cr3) s1
  { s2 with cr0 := cr0_old }

/-- Loop body of FpVmCallDisableFakePages for one registry entry: skip
foreign address spaces, stop shadowing, then copy the 32 bytes at the
patch offset of the exec shadow page back onto the live page under the
entry's CR3 and restore CR3. -/
def FpVmCallDisableFakePagesBody (requester_cr3 vmm_cr3 : Nat) (s : State)
    (fp : FakePageData) : State :=
  if fp.target_cr3 ≠ requester_cr3 then s
  else
    let s1 := FppDisableFakePage s fp
    let s2 := { s1 with cr3 := fp.target_cr3 }
    let s3 := { s2 with mem := (writeMemRange s2.mem s2.cr3 fp.patch_address
                  (fun i => s2.shadow fp.shadow_page_id (BYTE_OFFSET fp.patch_address + i)) 32) }
    { s3 with cr3 := vmm_cr3 }

/-- FpVmCallDisableFakePages: with CR0.WP temporarily cleared, run the
loop body over the registry, then restore CR0. -/
def FpVmCallDisableFakePages (s : State) : State :=
  let requester_cr3 := s.guest_cr3
  let vmm_cr3 := s.cr3
  let cr0_old := s.cr0
  let s1 := { s with cr0 := { cr0_old with wp := false } }
  let s2 := s1.all_fp_data.foldl (FpVmCallDisableFakePagesBody requester_cr3 vmm_cr3) s1
  { s2 with cr0 := cr0_old }

/-- FpVmCallDeleteFakePages: erase-remove of every entry owned by the
requesting address space (std::remove_if keeps the relative order of the
kept entries, i.e. a filter). -/
def FpVmCallDeleteFakePages (s : State) : State :=
  { s with all_fp_data := s.all_fp_data.filter (fun fp => fp.target_cr3 != s.guest_cr3) }

/-- SaveCpuinfo, parameterized by the host's CPUID (leaf, subleaf) map on
32-bit patterns.  A local std::unique_ptr<Cpuinfo> is modeled as
Option Cpuinfo: some while owning, none after std::move transfers
ownership into the vector (the C++ standard guarantees the moved-from
unique_ptr is null).  The source pushes cpu0 with std::move and then
reads cpu0->cpui[0] in the standard-leaf loop bound, and likewise pushes
cpu80 before reading cpu80->cpui[0] in the extended-leaf loop bound:
both are null dereferences.  The model returns none at such a
dereference (a machine fault: the function never returns and the cache
is never completed).  The dead branches keep the translation of the
remaining statements: the loops over the reported maxima (whose signed
int bounds correspond to these Nat ranges when the extended maximum has
its top bit set), the zero-initialized index and ecx that the source
never assigns on cpu80, and the leaf-4 sub-leaves. -/
def SaveCpuinfo (cpuid : Nat → Nat → Nat × Nat × Nat × Nat) : Option (List Cpuinfo) :=
  let cpu0 : Option Cpuinfo := some { index := 0, ecx := 0, cpui := cpuid 0 0 }
  let table : List Cpuinfo := [{ index := 0, ecx := 0, cpui := cpuid 0 0 }]
  let cpu0 : Option Cpuinfo := none
  match cpu0 with
  | none => none
  | some c0 =>
    let std := (List.range' 1 c0.cpui.1).map
      (fun i => { index := i, ecx := 0, cpui := cpuid i 0 : Cpuinfo })
    let cpu80 : Option Cpuinfo := some { index := 0, ecx := 0, cpui := cpuid 0x80000000 0 }
    let table := table ++ std ++ [{ index := 0, ecx := 0, cpui := cpuid 0x80000000 0 }]
    let cpu80 : Option Cpuinfo := none
    match cpu80 with
    | none => none
    | some c80 =>
      let ext := (List.range' 0x80000001 (c80.cpui.1 - 0x80000000)).map
        (fun i => { index := i, ecx := 0, cpui := cpuid i 0 : Cpuinfo })
      let l4 := (List.range' 1 3).map
        (fun i => { index := 4, ecx := i, cpui := cpuid 4 i : Cpuinfo })
      some (table ++ ext ++ l4)

/-- FpfindCpuid: find the first record for a leaf, comparing the sub-leaf
only for leaf 4; NULL becomes none. -/
def FpfindCpuid (cpuinfo : List Cpuinfo) (index subfun : Nat) :
    Option (Nat × Nat × Nat × Nat) :=
  if index = 4 then
    (cpuinfo.find? (fun c => c.index == 4 && c.ecx == subfun)).map (fun c => c.cpui)
  else
    (cpuinfo.find? (fun c => c.index == index)).map (fun c => c.cpui)

/-- FpHandleCpuid: thin wrapper over FpfindCpuid. -/
def FpHandleCpuid (cpuinfo : List Cpuinfo) (index subfun : Nat) :
    Option (Nat × Nat × Nat × Nat) :=
  FpfindCpuid cpuinfo index subfun

/-
Concrete fixtures used by witnesses and counterexamples.
-/

/-- A concrete registry entry: patch at offset 0x10 of guest page 0x2000 in
address space 1, original page at physical 0x5000, shadow page id 0 at
physical 0x9000, original bytes all 0xCC. -/
def fp0 : FakePageData :=
  { patch_address := 0x2010
    target_cr3 := 1
    shadow_page_id := 0
    pa_base_for_rw := 0x5000
    pa_base_for_exec := 0x9000
    original_bytes := fun _ => 0xCC }

/-- A concrete machine state: engine active, one registry entry (fp0), the
faulting page currently in ExecuteOnly (read/write denied, execute
granted), identity guest page tables, empty per-core slot. -/
def s0 : State :=
  { mem := fun _ _ => 0
    shadow := fun _ _ => 7
    shadowPa := fun pid => 0x9000 + pid * PAGE_SIZE
    paFromVa := fun _ va => va
    ept := fun _ => { read_access := false, write_access := false,
                      execute_access := true, physial_address := 9 }
    cr3 := 100
    guest_cr3 := 1
    cr0 := { wp := true, other := 0 }
    all_fp_data := [fp0]
    next_page_id := 1
    last_fp_data := none
    fault_va := 0
    mtf := false
    shared_present := true
    assert_failed := false
    trace := [] }

/-- A permission-caused qualification for a pure write attempt while the
page is ExecuteOnly: write attempted and denied, no read attempted. -/
def qWrite : EptViolationQualification :=
  { read_access := false, write_access := true, execute_access := false,
    ept_readable := false, ept_writeable := false, ept_executable := true,
    caused_by_translation := true }

/-- A translation-miss qualification (caused_by_translation clear). -/
def qMiss : EptViolationQualification :=
  { read_access := false, write_access := false, execute_access := true,
    ept_readable := false, ept_writeable := false, ept_executable := false,
    caused_by_translation := false }

/-- s0 with the per-core pending slot already holding fp0. -/
def sPend : State := { s0 with last_fp_data := some fp0 }

/-- A permission-caused qualification for an execute attempt with no
denied read and no denied write (the execute-confirmation branch). -/
def qExec : EptViolationQualification :=
  { read_access := false, write_access := false, execute_access := true,
    ept_readable := false, ept_writeable := false, ept_executable := false,
    caused_by_translation := true }

/-- s0 with the shadow page contents agreeing with guest memory (the state
right after Create, before any divergence). -/
def sRT : State := { s0 with shadow := fun _ _ => 0 }

/-- Create parameters targeting the page fp0 already shadows (0x2000). -/
def p0 : ApimonCreateShadowParameters :=
  { start_address := 0x2020, original_byte_size := 32, original_bytes := fun _ => 0x90 }

/-- Create parameters targeting a page no entry shadows yet (0x7000). -/
def pNew : ApimonCreateShadowParameters :=
  { start_address := 0x7008, original_byte_size := 32, original_bytes := fun _ => 0x90 }

/-- The effect of one FpVmCallEnableFakePages loop iteration on guest
memory alone: entries of the requesting address space get their 32
original bytes written at the patch address. -/
def enableMemStep (R : Nat) (m : Nat → Nat → Byte) (fp : FakePageData) : Nat → Nat → Byte :=
  if fp.target_cr3 = R then
    writeMemRange m fp.target_cr3 fp.patch_address fp.original_bytes 32
  else m

/-- The effect of the whole FpVmCallEnableFakePages loop on guest memory. -/
def enableMemFold (R : Nat) (reg : List FakePageData) (m : Nat → Nat → Byte) :
    Nat → Nat → Byte :=
  reg.foldl (enableMemStep R) m

/-- The effect of one FpVmCallDisableFakePages loop iteration on guest
memory alone: entries of the requesting address space get the 32 shadow
bytes at the patch offset written back at the patch address. -/
def disableMemStep (R : Nat) (sh : Nat → Nat → Byte) (m : Nat → Nat → Byte)
    (fp : FakePageData) : Nat → Nat → Byte :=
  if fp.target_cr3 = R then
    writeMemRange m fp.target_cr3 fp.patch_address
      (fun i => sh fp.shadow_page_id (BYTE_OFFSET fp.patch_address + i)) 32
  else m

/-- The effect of the whole FpVmCallDisableFakePages loop on guest memory. -/
def disableMemFold (R : Nat) (sh : Nat → Nat → Byte) (reg : List FakePageData)
    (m : Nat → Nat → Byte) : Nat → Nat → Byte :=
  reg.foldl (disableMemStep R sh) m

/-- Address (c, a) lies in the 32-byte patch range of entry fp, and fp is
owned by address space R. -/
def coveredByEntry (R : Nat) (fp : FakePageData) (c a : Nat) : Prop :=
  fp.target_cr3 = R ∧ c = fp.target_cr3 ∧
    fp.patch_address ≤ a ∧ a < fp.patch_address + 32

/-- Address (c, a) lies in the patch range of some entry of reg owned by R. -/
def coveredIn (R : Nat) (reg : List FakePageData) (c a : Nat) : Prop :=
  ∃ fp ∈ reg, coveredByEntry R fp c a

/-- Every EPT write in the trace is followed, later in the same trace, by
a global invalidation: the property the spec demands of every permission
transition. -/
def coversWritesP : List Event → Prop
  | [] => True
  | Event.eptWrite _ :: rest => Event.invept ∈ rest ∧ coversWritesP rest
  | Event.invept :: rest => coversWritesP rest

/-
Projection lemmas for the state transformers (proof plumbing).
-/

@[simp] theorem updateEpt_ept (s : State) (k : Nat) (f : EptEntry → EptEntry) (k2 : Nat) :
    (updateEpt s k f).ept k2 = if k2 = k then f (s.ept k2) else s.ept k2 := rfl

@[simp] theorem updateEpt_mem (s : State) (k : Nat) (f : EptEntry → EptEntry) :
    (updateEpt s k f).mem = s.mem := rfl

@[simp] theorem updateEpt_shadow (s : State) (k : Nat) (f : EptEntry → EptEntry) :
    (updateEpt s k f).shadow = s.shadow := rfl

@[simp] theorem updateEpt_cr3 (s : State) (k : Nat) (f : EptEntry → EptEntry) :
    (updateEpt s k f).cr3 = s.cr3 := rfl

@[simp] theorem updateEpt_guest_cr3 (s : State) (k : Nat) (f : EptEntry → EptEntry) :
    (updateEpt s k f).guest_cr3 = s.guest_cr3 := rfl

@[simp] theorem updateEpt_cr0 (s : State) (k : Nat) (f : EptEntry → EptEntry) :
    (updateEpt s k f).cr0 = s.cr0 := rfl

@[simp] theorem updateEpt_all_fp_data (s : State) (k : Nat) (f : EptEntry → EptEntry) :
    (updateEpt s k f).all_fp_data = s.all_fp_data := rfl

@[simp] theorem updateEpt_next_page_id (s : State) (k : Nat) (f : EptEntry → EptEntry) :
    (updateEpt s k f).next_page_id = s.next_page_id := rfl

@[simp] theorem updateEpt_last_fp_data (s : State) (k : Nat) (f : EptEntry → EptEntry) :
    (updateEpt s k f).last_fp_data = s.last_fp_data := rfl

@[simp] theorem updateEpt_fault_va (s : State) (k : Nat) (f : EptEntry → EptEntry) :
    (updateEpt s k f).fault_va = s.fault_va := rfl

@[simp] theorem updateEpt_mtf (s : State) (k : Nat) (f : EptEntry → EptEntry) :
    (updateEpt s k f).mtf = s.mtf := rfl

@[simp] theorem updateEpt_shared_present (s : State) (k : Nat) (f : EptEntry → EptEntry) :
    (updateEpt s k f).shared_present = s.shared_present := rfl

@[simp] theorem updateEpt_assert_failed (s : State) (k : Nat) (f : EptEntry → EptEntry) :
    (updateEpt s k f).assert_failed = s.assert_failed := rfl

@[simp] theorem updateEpt_paFromVa (s : State) (k : Nat) (f : EptEntry → EptEntry) :
    (updateEpt s k f).paFromVa = s.paFromVa := rfl

@[simp] theorem updateEpt_shadowPa (s : State) (k : Nat) (f : EptEntry → EptEntry) :
    (updateEpt s k f).shadowPa = s.shadowPa := rfl

@[simp] theorem updateEpt_trace (s : State) (k : Nat) (f : EptEntry → EptEntry) :
    (updateEpt s k f).trace = s.trace ++ [Event.eptWrite k] := rfl

@[simp] theorem invept_ept (s : State) : (invept s).ept = s.ept := rfl

@[simp] theorem invept_mem (s : State) : (invept s).mem = s.mem := rfl

@[simp] theorem invept_shadow (s : State) : (invept s).shadow = s.shadow := rfl

@[simp] theorem invept_cr3 (s : State) : (invept s).cr3 = s.cr3 := rfl

@[simp] theorem invept_guest_cr3 (s : State) : (invept s).guest_cr3 = s.guest_cr3 := rfl

@[simp] theorem invept_cr0 (s : State) : (invept s).cr0 = s.cr0 := rfl

@[simp] theorem invept_all_fp_data (s : State) : (invept s).all_fp_data = s.all_fp_data := rfl

@[simp] theorem invept_next_page_id (s : State) : (invept s).next_page_id = s.next_page_id := rfl

@[simp] theorem invept_last_fp_data (s : State) : (invept s).last_fp_data = s.last_fp_data := rfl

@[simp] theorem invept_fault_va (s : State) : (invept s).fault_va = s.fault_va := rfl

@[simp] theorem invept_mtf (s : State) : (invept s).mtf = s.mtf := rfl

@[simp] theorem invept_shared_present (s : State) : (invept s).shared_present = s.shared_present := rfl

@[simp] theorem invept_assert_failed (s : State) : (invept s).assert_failed = s.assert_failed := rfl

@[simp] theorem invept_paFromVa (s : State) : (invept s).paFromVa = s.paFromVa := rfl

@[simp] theorem invept_shadowPa (s : State) : (invept s).shadowPa = s.shadowPa := rfl

@[simp] theorem invept_trace (s : State) : (invept s).trace = s.trace ++ [Event.invept] := rfl

@[simp] theorem setMtf_mtf (s : State) (b : Bool) : (FppSetMonitorTrapFlag s b).mtf = b := rfl

@[simp] theorem setMtf_ept (s : State) (b : Bool) : (FppSetMonitorTrapFlag s b).ept = s.ept := rfl

@[simp] theorem setMtf_mem (s : State) (b : Bool) : (FppSetMonitorTrapFlag s b).mem = s.mem := rfl

@[simp] theorem setMtf_shadow (s : State) (b : Bool) : (FppSetMonitorTrapFlag s b).shadow = s.shadow := rfl

@[simp] theorem setMtf_cr3 (s : State) (b : Bool) : (FppSetMonitorTrapFlag s b).cr3 = s.cr3 := rfl

@[simp] theorem setMtf_guest_cr3 (s : State) (b : Bool) : (FppSetMonitorTrapFlag s b).guest_cr3 = s.guest_cr3 := rfl

@[simp] theorem setMtf_cr0 (s : State) (b : Bool) : (FppSetMonitorTrapFlag s b).cr0 = s.cr0 := rfl

@[simp] theorem setMtf_all_fp_data (s : State) (b : Bool) : (FppSetMonitorTrapFlag s b).all_fp_data = s.all_fp_data := rfl

@[simp] theorem setMtf_next_page_id (s : State) (b : Bool) : (FppSetMonitorTrapFlag s b).next_page_id = s.next_page_id := rfl

@[simp] theorem setMtf_last_fp_data (s : State) (b : Bool) : (FppSetMonitorTrapFlag s b).last_fp_data = s.last_fp_data := rfl

@[simp] theorem setMtf_fault_va (s : State) (b : Bool) : (FppSetMonitorTrapFlag s b).fault_va = s.fault_va := rfl

@[simp] theorem setMtf_shared_present (s : State) (b : Bool) : (FppSetMonitorTrapFlag s b).shared_present = s.shared_present := rfl

@[simp] theorem setMtf_assert_failed (s : State) (b : Bool) : (FppSetMonitorTrapFlag s b).assert_failed = s.assert_failed := rfl

@[simp] theorem setMtf_paFromVa (s : State) (b : Bool) : (FppSetMonitorTrapFlag s b).paFromVa = s.paFromVa := rfl

@[simp] theorem setMtf_shadowPa (s : State) (b : Bool) : (FppSetMonitorTrapFlag s b).shadowPa = s.shadowPa := rfl

@[simp] theorem setMtf_trace (s : State) (b : Bool) : (FppSetMonitorTrapFlag s b).trace = s.trace := rfl

@[simp] theorem saveLast_last (s : State) (fp : FakePageData) :
    (FppSaveLastFakePageData s fp).last_fp_data = some fp := by
  unfold FppSaveLastFakePageData; split <;> rfl

@[simp] theorem saveLast_assert_failed (s : State) (fp : FakePageData) :
    (FppSaveLastFakePageData s fp).assert_failed
      = (s.last_fp_data.isSome || s.assert_failed) := by
  unfold FppSaveLastFakePageData
  rcases h : s.last_fp_data with _ | v <;> simp [h]

@[simp] theorem saveLast_ept (s : State) (fp : FakePageData) :
    (FppSaveLastFakePageData s fp).ept = s.ept := by
  unfold FppSaveLastFakePageData; split <;> rfl

@[simp] theorem saveLast_mem (s : State) (fp : FakePageData) :
    (FppSaveLastFakePageData s fp).mem = s.mem := by
  unfold FppSaveLastFakePageData; split <;> rfl

@[simp] theorem saveLast_shadow (s : State) (fp : FakePageData) :
    (FppSaveLastFakePageData s fp).shadow = s.shadow := by
  unfold FppSaveLastFakePageData; split <;> rfl

@[simp] theorem saveLast_cr3 (s : State) (fp : FakePageData) :
    (FppSaveLastFakePageData s fp).cr3 = s.cr3 := by
  unfold FppSaveLastFakePageData; split <;> rfl

@[simp] theorem saveLast_guest_cr3 (s : State) (fp : FakePageData) :
    (FppSaveLastFakePageData s fp).guest_cr3 = s.guest_cr3 := by
  unfold FppSaveLastFakePageData; split <;> rfl

@[simp] theorem saveLast_cr0 (s : State) (fp : FakePageData) :
    (FppSaveLastFakePageData s fp).cr0 = s.cr0 := by
  unfold FppSaveLastFakePageData; split <;> rfl

@[simp] theorem saveLast_all_fp_data (s : State) (fp : FakePageData) :
    (FppSaveLastFakePageData s fp).all_fp_data = s.all_fp_data := by
  unfold FppSaveLastFakePageData; split <;> rfl

@[simp] theorem saveLast_next_page_id (s : State) (fp : FakePageData) :
    (FppSaveLastFakePageData s fp).next_page_id = s.next_page_id := by
  unfold FppSaveLastFakePageData; split <;> rfl

@[simp] theorem saveLast_mtf (s : State) (fp : FakePageData) :
    (FppSaveLastFakePageData s fp).mtf = s.mtf := by
  unfold FppSaveLastFakePageData; split <;> rfl

@[simp] theorem saveLast_fault_va (s : State) (fp : FakePageData) :
    (FppSaveLastFakePageData s fp).fault_va = s.fault_va := by
  unfold FppSaveLastFakePageData; split <;> rfl

@[simp] theorem saveLast_shared_present (s : State) (fp : FakePageData) :
    (FppSaveLastFakePageData s fp).shared_present = s.shared_present := by
  unfold FppSaveLastFakePageData; split <;> rfl

@[simp] theorem saveLast_paFromVa (s : State) (fp : FakePageData) :
    (FppSaveLastFakePageData s fp).paFromVa = s.paFromVa := by
  unfold FppSaveLastFakePageData; split <;> rfl

@[simp] theorem saveLast_shadowPa (s : State) (fp : FakePageData) :
    (FppSaveLastFakePageData s fp).shadowPa = s.shadowPa := by
  unfold FppSaveLastFakePageData; split <;> rfl

@[simp] theorem saveLast_trace (s : State) (fp : FakePageData) :
    (FppSaveLastFakePageData s fp).trace = s.trace := by
  unfold FppSaveLastFakePageData; split <;> rfl

@[simp] theorem restoreLast_snd (s : State) :
    (FppRestoreLastFakePageData s).2 = s.last_fp_data := rfl

@[simp] theorem restoreLast_fst_last (s : State) :
    (FppRestoreLastFakePageData s).1.last_fp_data = none := by
  rcases h : s.last_fp_data with _ | v <;> simp [FppRestoreLastFakePageData, h]

@[simp] theorem restoreLast_fst_assert_failed (s : State) :
    (FppRestoreLastFakePageData s).1.assert_failed
      = (s.last_fp_data.isNone || s.assert_failed) := by
  unfold FppRestoreLastFakePageData
  rcases h : s.last_fp_data with _ | v <;> simp [h]

@[simp] theorem enableForExec_ept (s : State) (fp : FakePageData) (k2 : Nat) :
    (FppEnableFakePageForExec s fp).ept k2 =
      if k2 = UtilPfnFromPa (s.paFromVa fp.target_cr3 fp.patch_address) then
        { read_access := false, write_access := false,
          execute_access := (s.ept k2).execute_access,
          physial_address := UtilPfnFromPa fp.pa_base_for_exec }
      else s.ept k2 := by
  simp only [FppEnableFakePageForExec, UtilPaFromVa, invept_ept, updateEpt_ept]
  by_cases h : k2 = UtilPfnFromPa (s.paFromVa fp.target_cr3 fp.patch_address) <;> simp [h]

@[simp] theorem enableForExec_mem (s : State) (fp : FakePageData) :
    (FppEnableFakePageForExec s fp).mem = s.mem := rfl

@[simp] theorem enableForExec_shadow (s : State) (fp : FakePageData) :
    (FppEnableFakePageForExec s fp).shadow = s.shadow := rfl

@[simp] theorem enableForExec_cr3 (s : State) (fp : FakePageData) :
    (FppEnableFakePageForExec s fp).cr3 = s.cr3 := rfl

@[simp] theorem enableForExec_guest_cr3 (s : State) (fp : FakePageData) :
    (FppEnableFakePageForExec s fp).guest_cr3 = s.guest_cr3 := rfl

@[simp] theorem enableForExec_cr0 (s : State) (fp : FakePageData) :
    (FppEnableFakePageForExec s fp).cr0 = s.cr0 := rfl

@[simp] theorem enableForExec_all_fp_data (s : State) (fp : FakePageData) :
    (FppEnableFakePageForExec s fp).all_fp_data = s.all_fp_data := rfl

@[simp] theorem enableForExec_next_page_id (s : State) (fp : FakePageData) :
    (FppEnableFakePageForExec s fp).next_page_id = s.next_page_id := rfl

@[simp] theorem enableForExec_last_fp_data (s : State) (fp : FakePageData) :
    (FppEnableFakePageForExec s fp).last_fp_data = s.last_fp_data := rfl

@[simp] theorem enableForExec_fault_va (s : State) (fp : FakePageData) :
    (FppEnableFakePageForExec s fp).fault_va = s.fault_va := rfl

@[simp] theorem enableForExec_mtf (s : State) (fp : FakePageData) :
    (FppEnableFakePageForExec s fp).mtf = s.mtf := rfl

@[simp] theorem enableForExec_shared_present (s : State) (fp : FakePageData) :
    (FppEnableFakePageForExec s fp).shared_present = s.shared_present := rfl

@[simp] theorem enableForExec_assert_failed (s : State) (fp : FakePageData) :
    (FppEnableFakePageForExec s fp).assert_failed = s.assert_failed := rfl

@[simp] theorem enableForExec_paFromVa (s : State) (fp : FakePageData) :
    (FppEnableFakePageForExec s fp).paFromVa = s.paFromVa := rfl

@[simp] theorem enableForExec_shadowPa (s : State) (fp : FakePageData) :
    (FppEnableFakePageForExec s fp).shadowPa = s.shadowPa := rfl

theorem enableForExec_trace (s : State) (fp : FakePageData) :
    (FppEnableFakePageForExec s fp).trace = s.trace ++
      [Event.eptWrite (UtilPfnFromPa (s.paFromVa fp.target_cr3 fp.patch_address)),
       Event.eptWrite (UtilPfnFromPa (s.paFromVa fp.target_cr3 fp.patch_address)),
       Event.eptWrite (UtilPfnFromPa (s.paFromVa fp.target_cr3 fp.patch_address)),
       Event.invept] := by
  simp [FppEnableFakePageForExec, UtilPaFromVa]

@[simp] theorem disableFakePage_ept (s : State) (fp : FakePageData) (k2 : Nat) :
    (FppDisableFakePage s fp).ept k2 =
      if k2 = UtilPfnFromPa (s.paFromVa fp.target_cr3 (PAGE_ALIGN fp.patch_address)) then
        { read_access := true, write_access := true,
          execute_access := (s.ept k2).execute_access,
          physial_address := UtilPfnFromPa (s.paFromVa fp.target_cr3 (PAGE_ALIGN fp.patch_address)) }
      else s.ept k2 := by
  simp only [FppDisableFakePage, UtilPaFromVa, invept_ept, updateEpt_ept]
  by_cases h : k2 = UtilPfnFromPa (s.paFromVa fp.target_cr3 (PAGE_ALIGN fp.patch_address)) <;>
    simp [h]

@[simp] theorem disableFakePage_mem (s : State) (fp : FakePageData) :
    (FppDisableFakePage s fp).mem = s.mem := rfl

@[simp] theorem disableFakePage_shadow (s : State) (fp : FakePageData) :
    (FppDisableFakePage s fp).shadow = s.shadow := rfl

@[simp] theorem disableFakePage_cr3 (s : State) (fp : FakePageData) :
    (FppDisableFakePage s fp).cr3 = s.cr3 := rfl

@[simp] theorem disableFakePage_guest_cr3 (s : State) (fp : FakePageData) :
    (FppDisableFakePage s fp).guest_cr3 = s.guest_cr3 := rfl

@[simp] theorem disableFakePage_cr0 (s : State) (fp : FakePageData) :
    (FppDisableFakePage s fp).cr0 = s.cr0 := rfl

@[simp] theorem disableFakePage_all_fp_data (s : State) (fp : FakePageData) :
    (FppDisableFakePage s fp).all_fp_data = s.all_fp_data := rfl

@[simp] theorem disableFakePage_next_page_id (s : State) (fp : FakePageData) :
    (FppDisableFakePage s fp).next_page_id = s.next_page_id := rfl

@[simp] theorem disableFakePage_last_fp_data (s : State) (fp : FakePageData) :
    (FppDisableFakePage s fp).last_fp_data = s.last_fp_data := rfl

@[simp] theorem disableFakePage_fault_va (s : State) (fp : FakePageData) :
    (FppDisableFakePage s fp).fault_va = s.fault_va := rfl

@[simp] theorem disableFakePage_mtf (s : State) (fp : FakePageData) :
    (FppDisableFakePage s fp).mtf = s.mtf := rfl

@[simp] theorem disableFakePage_shared_present (s : State) (fp : FakePageData) :
    (FppDisableFakePage s fp).shared_present = s.shared_present := rfl

@[simp] theorem disableFakePage_assert_failed (s : State) (fp : FakePageData) :
    (FppDisableFakePage s fp).assert_failed = s.assert_failed := rfl

@[simp] theorem disableFakePage_paFromVa (s : State) (fp : FakePageData) :
    (FppDisableFakePage s fp).paFromVa = s.paFromVa := rfl

@[simp] theorem disableFakePage_shadowPa (s : State) (fp : FakePageData) :
    (FppDisableFakePage s fp).shadowPa = s.shadowPa := rfl

theorem disableFakePage_trace (s : State) (fp : FakePageData) :
    (FppDisableFakePage s fp).trace = s.trace ++
      [Event.eptWrite (UtilPfnFromPa (s.paFromVa fp.target_cr3 (PAGE_ALIGN fp.patch_address))),
       Event.eptWrite (UtilPfnFromPa (s.paFromVa fp.target_cr3 (PAGE_ALIGN fp.patch_address))),
       Event.eptWrite (UtilPfnFromPa (s.paFromVa fp.target_cr3 (PAGE_ALIGN fp.patch_address))),
       Event.invept] := by
  simp [FppDisableFakePage, UtilPaFromVa]

/-
Theorems.
-/

/-- C1 (counterexample).  The claim says granted-read becomes
previously-granted-read OR attempted-read.  In state s0 the page is
ExecuteOnly (granted read = false) and qWrite attempts no read, so the
claim predicts granted-read = false; the code grants read because a write
was attempted (read := read_access || write_access). -/
theorem C1_counterexample :
    (s0.ept 5).read_access = false ∧ qWrite.read_access = false ∧
    ((FpHandleEptViolation s0 qWrite 0 0x5000).ept 5).read_access = true :=
  ⟨rfl, rfl, rfl⟩

/-- C1 (amended).  For a permission-caused EPT violation on a registered
page with the engine active, the new granted bits written to the page's
EPT entry are: granted-write = attempted-write, granted-read =
attempted-read OR attempted-write, granted-execute = attempted-execute. -/
theorem C1_granted_bits (s : State) (q : EptViolationQualification)
    (fva fpa : Nat) (fp : FakePageData)
    (hact : FppIsFuActive s = true)
    (hfind : FppFindFakePageDataByPPage s.all_fp_data fpa = some fp)
    (hq : q.caused_by_translation = true) :
    ((FpHandleEptViolation s q fva fpa).ept (UtilPfnFromPa fp.pa_base_for_rw)).write_access
        = q.write_access ∧
    ((FpHandleEptViolation s q fva fpa).ept (UtilPfnFromPa fp.pa_base_for_rw)).read_access
        = (q.read_access || q.write_access) ∧
    ((FpHandleEptViolation s q fva fpa).ept (UtilPfnFromPa fp.pa_base_for_rw)).execute_access
        = q.execute_access := by
  simp only [FpHandleEptViolation, hact, hfind, hq, Bool.not_true, Bool.false_eq_true,
    if_false]
  split <;> (try split) <;> simp

/-- C1 (witness): the amended statement at the concrete state s0 with the
pure-write qualification qWrite. -/
theorem C1_granted_bits_witness :
    ((FpHandleEptViolation s0 qWrite 0 0x5000).ept (UtilPfnFromPa fp0.pa_base_for_rw)).write_access
        = qWrite.write_access ∧
    ((FpHandleEptViolation s0 qWrite 0 0x5000).ept (UtilPfnFromPa fp0.pa_base_for_rw)).read_access
        = (qWrite.read_access || qWrite.write_access) ∧
    ((FpHandleEptViolation s0 qWrite 0 0x5000).ept (UtilPfnFromPa fp0.pa_base_for_rw)).execute_access
        = qWrite.execute_access :=
  C1_granted_bits s0 qWrite 0 0x5000 fp0 rfl rfl rfl

/-- C3 (counterexample).  The claim says the translation-miss reset leaves
read and write permitted (the Direct row).  In state s0 the page was
ExecuteOnly, and after the reset the code leaves read and write denied:
only the backing and the execute bit are touched. -/
theorem C3_counterexample :
    ((FpHandleEptViolation s0 qMiss 0 0x5000).ept 5).read_access = false ∧
    ((FpHandleEptViolation s0 qMiss 0 0x5000).ept 5).write_access = false ∧
    ((FpHandleEptViolation s0 qMiss 0 0x5000).ept 5).execute_access = false ∧
    ((FpHandleEptViolation s0 qMiss 0 0x5000).ept 5).physial_address = 5 :=
  ⟨rfl, rfl, rfl, rfl⟩

/-- C3 (amended).  On a translation-miss qualification for a registered
page, the handler points the EPT entry back at the original page and
denies execute, leaves the read and write bits at their prior values,
and returns without any further processing (memory, shadow pages, the
registry, the pending slot, MTF and CR3 are all unchanged). -/
theorem C3_translation_miss (s : State) (q : EptViolationQualification)
    (fva fpa : Nat) (fp : FakePageData)
    (hact : FppIsFuActive s = true)
    (hfind : FppFindFakePageDataByPPage s.all_fp_data fpa = some fp)
    (hq : q.caused_by_translation = false) :
    ((FpHandleEptViolation s q fva fpa).ept (UtilPfnFromPa fp.pa_base_for_rw)).physial_address
        = UtilPfnFromPa fp.pa_base_for_rw ∧
    ((FpHandleEptViolation s q fva fpa).ept (UtilPfnFromPa fp.pa_base_for_rw)).execute_access
        = false ∧
    ((FpHandleEptViolation s q fva fpa).ept (UtilPfnFromPa fp.pa_base_for_rw)).read_access
        = (s.ept (UtilPfnFromPa fp.pa_base_for_rw)).read_access ∧
    ((FpHandleEptViolation s q fva fpa).ept (UtilPfnFromPa fp.pa_base_for_rw)).write_access
        = (s.ept (UtilPfnFromPa fp.pa_base_for_rw)).write_access ∧
    (FpHandleEptViolation s q fva fpa).mem = s.mem ∧
    (FpHandleEptViolation s q fva fpa).shadow = s.shadow ∧
    (FpHandleEptViolation s q fva fpa).all_fp_data = s.all_fp_data ∧
    (FpHandleEptViolation s q fva fpa).last_fp_data = s.last_fp_data ∧
    (FpHandleEptViolation s q fva fpa).mtf = s.mtf ∧
    (FpHandleEptViolation s q fva fpa).cr3 = s.cr3 := by
  simp only [FpHandleEptViolation, hact, hfind, hq, Bool.not_true, Bool.not_false,
    Bool.false_eq_true, if_false, if_true]
  simp

/-- C3 (witness): the amended statement at the concrete state s0 with the
translation-miss qualification qMiss. -/
theorem C3_translation_miss_witness :
    ((FpHandleEptViolation s0 qMiss 0 0x5000).ept (UtilPfnFromPa fp0.pa_base_for_rw)).physial_address
        = UtilPfnFromPa fp0.pa_base_for_rw ∧
    ((FpHandleEptViolation s0 qMiss 0 0x5000).ept (UtilPfnFromPa fp0.pa_base_for_rw)).execute_access
        = false ∧
    ((FpHandleEptViolation s0 qMiss 0 0x5000).ept (UtilPfnFromPa fp0.pa_base_for_rw)).read_access
        = (s0.ept (UtilPfnFromPa fp0.pa_base_for_rw)).read_access ∧
    ((FpHandleEptViolation s0 qMiss 0 0x5000).ept (UtilPfnFromPa fp0.pa_base_for_rw)).write_access
        = (s0.ept (UtilPfnFromPa fp0.pa_base_for_rw)).write_access ∧
    (FpHandleEptViolation s0 qMiss 0 0x5000).mem = s0.mem ∧
    (FpHandleEptViolation s0 qMiss 0 0x5000).shadow = s0.shadow ∧
    (FpHandleEptViolation s0 qMiss 0 0x5000).all_fp_data = s0.all_fp_data ∧
    (FpHandleEptViolation s0 qMiss 0 0x5000).last_fp_data = s0.last_fp_data ∧
    (FpHandleEptViolation s0 qMiss 0 0x5000).mtf = s0.mtf ∧
    (FpHandleEptViolation s0 qMiss 0 0x5000).cr3 = s0.cr3 :=
  C3_translation_miss s0 qMiss 0 0x5000 fp0 rfl rfl rfl

/-- C4.  The per-core pending slot behaves as a two-state machine:
(1) arming (FppSaveLastFakePageData) while an entry is already pending
fails the fatal assertion; (2) consuming (FppRestoreLastFakePageData) on
an empty slot fails the fatal assertion; (3) FpHandleMonitorTrapFlag with
a pending entry consumes it exactly once (slot becomes none, cleanly),
re-applies the execute-only shadow state for that entry and clears the
single-step trap control; (4) the violation dispatcher changes the slot
only by arming, i.e. whenever the slot changes it becomes occupied with
the single-step trap control enabled. -/
theorem C4_pending_slot :
    (∀ (s : State) (fp : FakePageData), s.last_fp_data.isSome = true →
        (FppSaveLastFakePageData s fp).assert_failed = true) ∧
    (∀ s : State, s.last_fp_data = none →
        (FppRestoreLastFakePageData s).1.assert_failed = true) ∧
    (∀ (s : State) (fp : FakePageData), FppIsFuActive s = true →
        s.last_fp_data = some fp →
        (FpHandleMonitorTrapFlag s).last_fp_data = none ∧
        (FpHandleMonitorTrapFlag s).mtf = false ∧
        (FpHandleMonitorTrapFlag s).assert_failed = s.assert_failed ∧
        ((FpHandleMonitorTrapFlag s).ept
            (UtilPfnFromPa (s.paFromVa fp.target_cr3 fp.patch_address))).read_access = false ∧
        ((FpHandleMonitorTrapFlag s).ept
            (UtilPfnFromPa (s.paFromVa fp.target_cr3 fp.patch_address))).write_access = false ∧
        ((FpHandleMonitorTrapFlag s).ept
            (UtilPfnFromPa (s.paFromVa fp.target_cr3 fp.patch_address))).physial_address
          = UtilPfnFromPa fp.pa_base_for_exec) ∧
    (∀ (s : State) (q : EptViolationQualification) (fva fpa : Nat),
        (FpHandleEptViolation s q fva fpa).last_fp_data = s.last_fp_data ∨
        ((FpHandleEptViolation s q fva fpa).mtf = true ∧
         ∃ fp, (FpHandleEptViolation s q fva fpa).last_fp_data = some fp)) := by
  refine ⟨?_, ?_, ?_, ?_⟩
  · intro s fp h
    simp [saveLast_assert_failed, h]
  · intro s h
    simp [restoreLast_fst_assert_failed, h]
  · intro s fp hact hslot
    have hrestore : FppRestoreLastFakePageData s = ({ s with last_fp_data := none }, some fp) := by
      simp [FppRestoreLastFakePageData, hslot]
    simp [FpHandleMonitorTrapFlag, hact, hrestore, hslot]
  · intro s q fva fpa
    simp only [FpHandleEptViolation]
    by_cases hact : FppIsFuActive s
    case neg => simp [hact]
    rcases hfind : FppFindFakePageDataByPPage s.all_fp_data fpa with _ | fp
    · simp [hact, hfind]
    · simp only [hact, hfind, Bool.not_true, Bool.false_eq_true, if_false]
      by_cases hq : q.caused_by_translation = true
      · simp only [hq, Bool.not_true, Bool.false_eq_true, if_false]
        split <;> (try split) <;>
          first
            | ((refine Or.inr ⟨?_, ⟨fp, ?_⟩⟩ <;> simp); done)
            | simp
      · simp [hq]

/-- C4 (witness): the three guarded parts of C4_pending_slot at concrete
states: arming over an occupied slot, consuming an empty slot, and the
trap handler consuming the pending entry fp0. -/
theorem C4_pending_slot_witness :
    (FppSaveLastFakePageData sPend fp0).assert_failed = true ∧
    (FppRestoreLastFakePageData s0).1.assert_failed = true ∧
    ((FpHandleMonitorTrapFlag sPend).last_fp_data = none ∧
     (FpHandleMonitorTrapFlag sPend).mtf = false ∧
     (FpHandleMonitorTrapFlag sPend).assert_failed = sPend.assert_failed ∧
     ((FpHandleMonitorTrapFlag sPend).ept
         (UtilPfnFromPa (sPend.paFromVa fp0.target_cr3 fp0.patch_address))).read_access = false ∧
     ((FpHandleMonitorTrapFlag sPend).ept
         (UtilPfnFromPa (sPend.paFromVa fp0.target_cr3 fp0.patch_address))).write_access = false ∧
     ((FpHandleMonitorTrapFlag sPend).ept
         (UtilPfnFromPa (sPend.paFromVa fp0.target_cr3 fp0.patch_address))).physial_address
       = UtilPfnFromPa fp0.pa_base_for_exec) :=
  ⟨C4_pending_slot.1 sPend fp0 rfl,
   C4_pending_slot.2.1 s0 rfl,
   C4_pending_slot.2.2.1 sPend fp0 rfl rfl⟩

/-- C2.  On a permission-caused violation of a registered page whose
qualification contains no denied read and no denied write, with the patch
offset at most PAGE_SIZE - 32, the handler copies every byte of the live
page outside [offset, offset + 32) from the entry's address space into
the shadow page at the same offset, leaves the 32 bytes at the patch
offset of the shadow page unchanged, and points the page's EPT entry at
the exec shadow page. -/
theorem C2_resync_shadow (s : State) (q : EptViolationQualification)
    (fva fpa : Nat) (fp : FakePageData)
    (hact : FppIsFuActive s = true)
    (hfind : FppFindFakePageDataByPPage s.all_fp_data fpa = some fp)
    (hq : q.caused_by_translation = true)
    (hr : (q.read_access && !q.ept_readable) = false)
    (hw : (q.write_access && !q.ept_writeable) = false)
    (hoff : BYTE_OFFSET fp.patch_address ≤ PAGE_SIZE - 32) :
    (∀ i, i < PAGE_SIZE →
        (i < BYTE_OFFSET fp.patch_address ∨ BYTE_OFFSET fp.patch_address + 32 ≤ i) →
        (FpHandleEptViolation s q fva fpa).shadow fp.shadow_page_id i
          = s.mem fp.target_cr3 (PAGE_ALIGN fp.patch_address + i)) ∧
    (∀ i, BYTE_OFFSET fp.patch_address ≤ i → i < BYTE_OFFSET fp.patch_address + 32 →
        (FpHandleEptViolation s q fva fpa).shadow fp.shadow_page_id i
          = s.shadow fp.shadow_page_id i) ∧
    ((FpHandleEptViolation s q fva fpa).ept (UtilPfnFromPa fp.pa_base_for_rw)).physial_address
      = UtilPfnFromPa fp.pa_base_for_exec := by
  simp only [FpHandleEptViolation, hact, hfind, hq, hr, hw, Bool.not_true,
    Bool.false_eq_true, if_false, Bool.or_false]
  refine ⟨?_, ?_, ?_⟩
  · intro i h1 h2
    split <;>
      (simp only [saveLast_shadow, setMtf_shadow, updateEpt_shadow, updateEpt_mem,
         updateEpt_cr3, writeShadowRange, eq_self_iff_true, true_and]
       split_ifs with h3 h4 <;>
         (simp only [PAGE_ALIGN, BYTE_OFFSET, PAGE_SIZE] at *
          all_goals
            first
              | rfl
              | (congr 1 <;> omega)
              | (exfalso; omega)))
  · intro i h1 h2
    split <;>
      (simp only [saveLast_shadow, setMtf_shadow, updateEpt_shadow, updateEpt_mem,
         updateEpt_cr3, writeShadowRange, eq_self_iff_true, true_and]
       split_ifs with h3 h4 <;>
         (simp only [PAGE_ALIGN, BYTE_OFFSET, PAGE_SIZE] at *
          all_goals
            first
              | rfl
              | (congr 1 <;> omega)
              | (exfalso; omega)))
  · split <;> simp

/-- C2 (witness): the statement at the concrete state s0, entry fp0
(patch offset 0x10) and the execute-confirmation qualification qExec. -/
theorem C2_resync_shadow_witness :
    (FpHandleEptViolation s0 qExec 0 0x5000).shadow fp0.shadow_page_id 0
        = s0.mem fp0.target_cr3 (PAGE_ALIGN fp0.patch_address + 0) ∧
    (FpHandleEptViolation s0 qExec 0 0x5000).shadow fp0.shadow_page_id 0x40
        = s0.mem fp0.target_cr3 (PAGE_ALIGN fp0.patch_address + 0x40) ∧
    (FpHandleEptViolation s0 qExec 0 0x5000).shadow fp0.shadow_page_id 0x10
        = s0.shadow fp0.shadow_page_id 0x10 ∧
    ((FpHandleEptViolation s0 qExec 0 0x5000).ept (UtilPfnFromPa fp0.pa_base_for_rw)).physial_address
      = UtilPfnFromPa fp0.pa_base_for_exec :=
  ⟨(C2_resync_shadow s0 qExec 0 0x5000 fp0 rfl rfl rfl rfl rfl (by decide)).1
      0 (by decide) (by decide),
   (C2_resync_shadow s0 qExec 0 0x5000 fp0 rfl rfl rfl rfl rfl (by decide)).1
      0x40 (by decide) (by decide),
   (C2_resync_shadow s0 qExec 0 0x5000 fp0 rfl rfl rfl rfl rfl (by decide)).2.1
      0x10 (by decide) (by decide),
   (C2_resync_shadow s0 qExec 0 0x5000 fp0 rfl rfl rfl rfl rfl (by decide)).2.2⟩

theorem writeMemRange_apply (m : Nat → Nat → Byte) (c dst : Nat) (src : Nat → Byte)
    (len c2 a : Nat) :
    writeMemRange m c dst src len c2 a
      = if c2 = c ∧ dst ≤ a ∧ a < dst + len then src (a - dst) else m c2 a := rfl

theorem enableBody_mem (R V : Nat) (s : State) (fp : FakePageData) :
    (FpVmCallEnableFakePagesBody R V s fp).mem = enableMemStep R s.mem fp := by
  by_cases h : fp.target_cr3 = R <;>
    simp [FpVmCallEnableFakePagesBody, enableMemStep, h]

theorem enableBody_frame (R V : Nat) (s : State) (fp : FakePageData) :
    (FpVmCallEnableFakePagesBody R V s fp).shadow = s.shadow ∧
    (FpVmCallEnableFakePagesBody R V s fp).all_fp_data = s.all_fp_data ∧
    (FpVmCallEnableFakePagesBody R V s fp).guest_cr3 = s.guest_cr3 := by
  by_cases h : fp.target_cr3 = R <;>
    simp [FpVmCallEnableFakePagesBody, h]

theorem enableBody_cr3 (R V : Nat) (s : State) (fp : FakePageData) :
    (FpVmCallEnableFakePagesBody R V s fp).cr3
      = if fp.target_cr3 = R then V else s.cr3 := by
  by_cases h : fp.target_cr3 = R <;>
    simp [FpVmCallEnableFakePagesBody, h]

theorem disableBody_mem (R V : Nat) (s : State) (fp : FakePageData) :
    (FpVmCallDisableFakePagesBody R V s fp).mem = disableMemStep R s.shadow s.mem fp := by
  by_cases h : fp.target_cr3 = R <;>
    simp [FpVmCallDisableFakePagesBody, disableMemStep, h]

theorem disableBody_frame (R V : Nat) (s : State) (fp : FakePageData) :
    (FpVmCallDisableFakePagesBody R V s fp).shadow = s.shadow ∧
    (FpVmCallDisableFakePagesBody R V s fp).all_fp_data = s.all_fp_data ∧
    (FpVmCallDisableFakePagesBody R V s fp).guest_cr3 = s.guest_cr3 := by
  by_cases h : fp.target_cr3 = R <;>
    simp [FpVmCallDisableFakePagesBody, h]

theorem disableBody_cr3 (R V : Nat) (s : State) (fp : FakePageData) :
    (FpVmCallDisableFakePagesBody R V s fp).cr3
      = if fp.target_cr3 = R then V else s.cr3 := by
  by_cases h : fp.target_cr3 = R <;>
    simp [FpVmCallDisableFakePagesBody, h]

theorem enable_fold_mem (R V : Nat) :
    ∀ (reg : List FakePageData) (s : State),
      (reg.foldl (FpVmCallEnableFakePagesBody R V) s).mem = enableMemFold R reg s.mem := by
  intro reg
  induction reg with
  | nil => intro s; rfl
  | cons fp t ih =>
      intro s
      show (t.foldl (FpVmCallEnableFakePagesBody R V) (FpVmCallEnableFakePagesBody R V s fp)).mem
          = enableMemFold R t (enableMemStep R s.mem fp)
      rw [ih, enableBody_mem]

theorem enable_fold_frame (R V : Nat) :
    ∀ (reg : List FakePageData) (s : State),
      (reg.foldl (FpVmCallEnableFakePagesBody R V) s).shadow = s.shadow ∧
      (reg.foldl (FpVmCallEnableFakePagesBody R V) s).all_fp_data = s.all_fp_data ∧
      (reg.foldl (FpVmCallEnableFakePagesBody R V) s).guest_cr3 = s.guest_cr3 := by
  intro reg
  induction reg with
  | nil => intro s; exact ⟨rfl, rfl, rfl⟩
  | cons fp t ih =>
      intro s
      have hb := enableBody_frame R V s fp
      have hi := ih (FpVmCallEnableFakePagesBody R V s fp)
      exact ⟨hi.1.trans hb.1, hi.2.1.trans hb.2.1, hi.2.2.trans hb.2.2⟩

theorem enable_fold_cr3 (R V : Nat) :
    ∀ (reg : List FakePageData) (s : State), s.cr3 = V →
      (reg.foldl (FpVmCallEnableFakePagesBody R V) s).cr3 = V := by
  intro reg
  induction reg with
  | nil => intro s h; exact h
  | cons fp t ih =>
      intro s h
      refine ih _ ?_
      rw [enableBody_cr3]
      split <;> simp [h]

theorem disable_fold_mem (R V : Nat) :
    ∀ (reg : List FakePageData) (s : State),
      (reg.foldl (FpVmCallDisableFakePagesBody R V) s).mem
          = disableMemFold R s.shadow reg s.mem ∧
      (reg.foldl (FpVmCallDisableFakePagesBody R V) s).shadow = s.shadow := by
  intro reg
  induction reg with
  | nil => intro s; exact ⟨rfl, rfl⟩
  | cons fp t ih =>
      intro s
      have hb := disableBody_frame R V s fp
      have hi := ih (FpVmCallDisableFakePagesBody R V s fp)
      constructor
      · show (t.foldl (FpVmCallDisableFakePagesBody R V)
            (FpVmCallDisableFakePagesBody R V s fp)).mem
          = disableMemFold R s.shadow t (disableMemStep R s.shadow s.mem fp)
        rw [hi.1, hb.1, disableBody_mem]
      · exact hi.2.trans hb.1

theorem disable_fold_frame (R V : Nat) :
    ∀ (reg : List FakePageData) (s : State),
      (reg.foldl (FpVmCallDisableFakePagesBody R V) s).all_fp_data = s.all_fp_data ∧
      (reg.foldl (FpVmCallDisableFakePagesBody R V) s).guest_cr3 = s.guest_cr3 := by
  intro reg
  induction reg with
  | nil => intro s; exact ⟨rfl, rfl⟩
  | cons fp t ih =>
      intro s
      have hb := disableBody_frame R V s fp
      have hi := ih (FpVmCallDisableFakePagesBody R V s fp)
      exact ⟨hi.1.trans hb.2.1, hi.2.trans hb.2.2⟩

theorem disable_fold_cr3 (R V : Nat) :
    ∀ (reg : List FakePageData) (s : State), s.cr3 = V →
      (reg.foldl (FpVmCallDisableFakePagesBody R V) s).cr3 = V := by
  intro reg
  induction reg with
  | nil => intro s h; exact h
  | cons fp t ih =>
      intro s h
      refine ih _ ?_
      rw [disableBody_cr3]
      split <;> simp [h]

theorem enable_mem (s : State) :
    (FpVmCallEnableFakePages s).mem = enableMemFold s.guest_cr3 s.all_fp_data s.mem := by
  simp only [FpVmCallEnableFakePages]
  rw [enable_fold_mem]

theorem enable_shadow (s : State) :
    (FpVmCallEnableFakePages s).shadow = s.shadow := by
  simp only [FpVmCallEnableFakePages]
  rw [(enable_fold_frame _ _ _ _).1]

theorem enable_all_fp_data (s : State) :
    (FpVmCallEnableFakePages s).all_fp_data = s.all_fp_data := by
  simp only [FpVmCallEnableFakePages]
  rw [(enable_fold_frame _ _ _ _).2.1]

theorem enable_guest_cr3 (s : State) :
    (FpVmCallEnableFakePages s).guest_cr3 = s.guest_cr3 := by
  simp only [FpVmCallEnableFakePages]
  rw [(enable_fold_frame _ _ _ _).2.2]

theorem enable_cr3 (s : State) : (FpVmCallEnableFakePages s).cr3 = s.cr3 := by
  simp only [FpVmCallEnableFakePages]
  exact enable_fold_cr3 _ _ _ _ rfl

theorem enable_cr0 (s : State) : (FpVmCallEnableFakePages s).cr0 = s.cr0 := by
  simp only [FpVmCallEnableFakePages]

theorem disable_mem (s : State) :
    (FpVmCallDisableFakePages s).mem
      = disableMemFold s.guest_cr3 s.shadow s.all_fp_data s.mem := by
  simp only [FpVmCallDisableFakePages]
  rw [(disable_fold_mem _ _ _ _).1]

theorem disable_shadow (s : State) :
    (FpVmCallDisableFakePages s).shadow = s.shadow := by
  simp only [FpVmCallDisableFakePages]
  rw [(disable_fold_mem _ _ _ _).2]

theorem disable_all_fp_data (s : State) :
    (FpVmCallDisableFakePages s).all_fp_data = s.all_fp_data := by
  simp only [FpVmCallDisableFakePages]
  rw [(disable_fold_frame _ _ _ _).1]

theorem disable_cr3 (s : State) : (FpVmCallDisableFakePages s).cr3 = s.cr3 := by
  simp only [FpVmCallDisableFakePages]
  exact disable_fold_cr3 _ _ _ _ rfl

theorem disable_cr0 (s : State) : (FpVmCallDisableFakePages s).cr0 = s.cr0 := by
  simp only [FpVmCallDisableFakePages]

theorem enableMemFold_unchanged (R : Nat) :
    ∀ (reg : List FakePageData) (m : Nat → Nat → Byte) (c a : Nat),
      ¬ coveredIn R reg c a → enableMemFold R reg m c a = m c a := by
  intro reg
  induction reg with
  | nil => intro m c a _; rfl
  | cons fp t ih =>
      intro m c a h
      have h1 : ¬ coveredIn R t c a := by
        intro hc
        obtain ⟨g, hg, hcov⟩ := hc
        exact h ⟨g, List.mem_cons_of_mem _ hg, hcov⟩
      have h2 : ¬ coveredByEntry R fp c a := fun hc => h ⟨fp, List.mem_cons_self _ _, hc⟩
      calc enableMemFold R t (enableMemStep R m fp) c a
          = enableMemStep R m fp c a := ih _ c a h1
        _ = m c a := by
            unfold enableMemStep
            by_cases hr : fp.target_cr3 = R
            · rw [if_pos hr, writeMemRange_apply, if_neg]
              intro hin
              exact h2 ⟨hr, hin.1, hin.2.1, hin.2.2⟩
            · rw [if_neg hr]

theorem disableMemFold_spec (R : Nat) (sh : Nat → Nat → Byte) (m : Nat → Nat → Byte) :
    ∀ (reg : List FakePageData) (m2 : Nat → Nat → Byte),
      (∀ fp ∈ reg, fp.target_cr3 = R → ∀ i, i < 32 →
          sh fp.shadow_page_id (BYTE_OFFSET fp.patch_address + i)
            = m fp.target_cr3 (fp.patch_address + i)) →
      (∀ c a, ¬ coveredIn R reg c a → m2 c a = m c a) →
      ∀ c a, disableMemFold R sh reg m2 c a = m c a := by
  intro reg
  induction reg with
  | nil =>
      intro m2 _ h2 c a
      refine h2 c a ?_
      intro hc
      obtain ⟨g, hg, _⟩ := hc
      exact absurd hg (List.not_mem_nil g)
  | cons fp t ih =>
      intro m2 h1 h2 c a
      show disableMemFold R sh t (disableMemStep R sh m2 fp) c a = m c a
      refine ih _ ?_ ?_ c a
      · intro g hg hr i hi
        exact h1 g (List.mem_cons_of_mem _ hg) hr i hi
      · intro c2 a2 hnc
        unfold disableMemStep
        by_cases hr : fp.target_cr3 = R
        · rw [if_pos hr, writeMemRange_apply]
          by_cases hin : c2 = fp.target_cr3 ∧ fp.patch_address ≤ a2 ∧
              a2 < fp.patch_address + 32
          · rw [if_pos hin]
            obtain ⟨hc, hp1, hp2⟩ := hin
            have hby := h1 fp (List.mem_cons_self _ _) hr (a2 - fp.patch_address) (by omega)
            rw [hby, hc]
            congr 1
            omega
          · rw [if_neg hin]
            refine h2 c2 a2 ?_
            intro hcov
            obtain ⟨g, hg, hcv⟩ := hcov
            rcases List.mem_cons.mp hg with hge | hgt
            · subst hge
              exact hin ⟨hcv.2.1, hcv.2.2.1, hcv.2.2.2⟩
            · exact hnc ⟨g, hgt, hcv⟩
        · rw [if_neg hr]
          refine h2 c2 a2 ?_
          intro hcov
          obtain ⟨g, hg, hcv⟩ := hcov
          rcases List.mem_cons.mp hg with hge | hgt
          · subst hge
            exact hr hcv.1
          · exact hnc ⟨g, hgt, hcv⟩

theorem roundtripMem (R : Nat) (sh : Nat → Nat → Byte) (reg : List FakePageData)
    (m : Nat → Nat → Byte)
    (H : ∀ fp ∈ reg, fp.target_cr3 = R → ∀ i, i < 32 →
        sh fp.shadow_page_id (BYTE_OFFSET fp.patch_address + i)
          = m fp.target_cr3 (fp.patch_address + i)) :
    ∀ c a, disableMemFold R sh reg (enableMemFold R reg m) c a = m c a :=
  disableMemFold_spec R sh m reg (enableMemFold R reg m) H
    (fun c a h => enableMemFold_unchanged R reg m c a h)

/-- C5.  Create (FppCreateFakePageData): when the registry already holds
an entry for the same (guest CR3, page), the new entry reuses its shadow
page (same shared page id, nothing allocated, nothing copied); otherwise
a fresh shadow page is allocated and the full PAGE_SIZE content of the
live page is copied into it, other shadow pages being untouched. -/
theorem C5_create_reuse_or_copy :
    (∀ (s : State) (p : ApimonCreateShadowParameters) (r : FakePageData),
        FppFindFakePageDataByPage s.all_fp_data s.guest_cr3 p.start_address = some r →
        (FppCreateFakePageData s p).2.shadow_page_id = r.shadow_page_id ∧
        (FppCreateFakePageData s p).1.next_page_id = s.next_page_id ∧
        (FppCreateFakePageData s p).1.shadow = s.shadow) ∧
    (∀ (s : State) (p : ApimonCreateShadowParameters),
        FppFindFakePageDataByPage s.all_fp_data s.guest_cr3 p.start_address = none →
        (FppCreateFakePageData s p).2.shadow_page_id = s.next_page_id ∧
        (FppCreateFakePageData s p).1.next_page_id = s.next_page_id + 1 ∧
        (∀ i, i < PAGE_SIZE →
            (FppCreateFakePageData s p).1.shadow s.next_page_id i
              = s.mem s.guest_cr3 (PAGE_ALIGN p.start_address + i)) ∧
        (∀ pid i, pid ≠ s.next_page_id →
            (FppCreateFakePageData s p).1.shadow pid i = s.shadow pid i)) := by
  constructor
  · intro s p r h
    refine ⟨?_, ?_, ?_⟩ <;> simp [FppCreateFakePageData, h]
  · intro s p h
    refine ⟨?_, ?_, ?_, ?_⟩
    · simp [FppCreateFakePageData, h]
    · simp [FppCreateFakePageData, h]
    · intro i hi
      simp [FppCreateFakePageData, h, writeShadowRange, hi]
    · intro pid i hpid
      simp [FppCreateFakePageData, h, writeShadowRange, hpid]

/-- C5 (witness): creating over the page fp0 already shadows reuses
fp0's shadow page with no allocation; creating over a fresh page
allocates the next page id. -/
theorem C5_create_reuse_or_copy_witness :
    ((FppCreateFakePageData s0 p0).2.shadow_page_id = fp0.shadow_page_id ∧
     (FppCreateFakePageData s0 p0).1.next_page_id = s0.next_page_id ∧
     (FppCreateFakePageData s0 p0).1.shadow = s0.shadow) ∧
    ((FppCreateFakePageData s0 pNew).2.shadow_page_id = s0.next_page_id ∧
     (FppCreateFakePageData s0 pNew).1.next_page_id = s0.next_page_id + 1) :=
  ⟨C5_create_reuse_or_copy.1 s0 p0 fp0 rfl,
   (C5_create_reuse_or_copy.2 s0 pNew rfl).1,
   (C5_create_reuse_or_copy.2 s0 pNew rfl).2.1⟩

/-- C6 (counterexample).  Enable followed by Disable does not in general
restore the live page: in s0 the shadow page byte at the patch offset is
7 while the live byte is 0, and after the round trip the live byte is 7.
The claim as stated predicts it would be restored to 0. -/
theorem C6_counterexample :
    (FpVmCallDisableFakePages (FpVmCallEnableFakePages s0)).mem 1 0x2010 = 7 ∧
    s0.mem 1 0x2010 = 0 := ⟨rfl, rfl⟩

/-- C6 (amended).  If, for every entry of the requesting address space,
the shadow page's 32 bytes at the entry's patch offset agree with the
live page's bytes at the patch address (as is the case immediately after
Create, whose copy makes the shadow an exact image of the live page),
then Enable followed by Disable restores every byte of guest memory. -/
theorem C6_enable_disable_roundtrip (s : State)
    (H : ∀ fp ∈ s.all_fp_data, fp.target_cr3 = s.guest_cr3 → ∀ i, i < 32 →
        s.shadow fp.shadow_page_id (BYTE_OFFSET fp.patch_address + i)
          = s.mem fp.target_cr3 (fp.patch_address + i)) :
    ∀ c a, (FpVmCallDisableFakePages (FpVmCallEnableFakePages s)).mem c a = s.mem c a := by
  intro c a
  rw [disable_mem, enable_shadow, enable_all_fp_data, enable_guest_cr3, enable_mem]
  exact roundtripMem s.guest_cr3 s.shadow s.all_fp_data s.mem H c a

/-- C6 (witness): in sRT the shadow agrees with the live page, and the
round trip restores the byte at the patch address. -/
theorem C6_enable_disable_roundtrip_witness :
    (FpVmCallDisableFakePages (FpVmCallEnableFakePages sRT)).mem 1 0x2010
      = sRT.mem 1 0x2010 :=
  C6_enable_disable_roundtrip sRT (fun fp _ _ i _ => rfl) 1 0x2010

theorem coversWritesP_append {l1 l2 : List Event}
    (h1 : coversWritesP l1) (h2 : coversWritesP l2) : coversWritesP (l1 ++ l2) := by
  induction l1 with
  | nil => exact h2
  | cons e t ih =>
      cases e with
      | eptWrite k => exact ⟨List.mem_append_left l2 h1.1, ih h1.2⟩
      | invept => exact ih h1

theorem enableBody_covers (R V : Nat) (s : State) (fp : FakePageData) :
    ∃ tr, (FpVmCallEnableFakePagesBody R V s fp).trace = s.trace ++ tr ∧ coversWritesP tr := by
  by_cases h : fp.target_cr3 = R
  · refine ⟨[Event.eptWrite (UtilPfnFromPa (s.paFromVa fp.target_cr3 fp.patch_address)),
            Event.eptWrite (UtilPfnFromPa (s.paFromVa fp.target_cr3 fp.patch_address)),
            Event.eptWrite (UtilPfnFromPa (s.paFromVa fp.target_cr3 fp.patch_address)),
            Event.invept], ?_, by simp [coversWritesP]⟩
    simp [FpVmCallEnableFakePagesBody, h, enableForExec_trace]
  · exact ⟨[], by simp [FpVmCallEnableFakePagesBody, h], trivial⟩

theorem disableBody_covers (R V : Nat) (s : State) (fp : FakePageData) :
    ∃ tr, (FpVmCallDisableFakePagesBody R V s fp).trace = s.trace ++ tr ∧ coversWritesP tr := by
  by_cases h : fp.target_cr3 = R
  · refine ⟨[Event.eptWrite (UtilPfnFromPa (s.paFromVa fp.target_cr3 (PAGE_ALIGN fp.patch_address))),
            Event.eptWrite (UtilPfnFromPa (s.paFromVa fp.target_cr3 (PAGE_ALIGN fp.patch_address))),
            Event.eptWrite (UtilPfnFromPa (s.paFromVa fp.target_cr3 (PAGE_ALIGN fp.patch_address))),
            Event.invept], ?_, by simp [coversWritesP]⟩
    simp [FpVmCallDisableFakePagesBody, h, disableFakePage_trace]
  · exact ⟨[], by simp [FpVmCallDisableFakePagesBody, h], trivial⟩

theorem enable_fold_covers (R V : Nat) :
    ∀ (reg : List FakePageData) (s : State),
      ∃ tr, (reg.foldl (FpVmCallEnableFakePagesBody R V) s).trace = s.trace ++ tr ∧
        coversWritesP tr := by
  intro reg
  induction reg with
  | nil => intro s; exact ⟨[], by simp, trivial⟩
  | cons fp t ih =>
      intro s
      obtain ⟨tr1, h1, c1⟩ := enableBody_covers R V s fp
      obtain ⟨tr2, h2, c2⟩ := ih (FpVmCallEnableFakePagesBody R V s fp)
      refine ⟨tr1 ++ tr2, ?_, coversWritesP_append c1 c2⟩
      show (t.foldl (FpVmCallEnableFakePagesBody R V)
          (FpVmCallEnableFakePagesBody R V s fp)).trace = s.trace ++ (tr1 ++ tr2)
      rw [h2, h1, List.append_assoc]

theorem disable_fold_covers (R V : Nat) :
    ∀ (reg : List FakePageData) (s : State),
      ∃ tr, (reg.foldl (FpVmCallDisableFakePagesBody R V) s).trace = s.trace ++ tr ∧
        coversWritesP tr := by
  intro reg
  induction reg with
  | nil => intro s; exact ⟨[], by simp, trivial⟩
  | cons fp t ih =>
      intro s
      obtain ⟨tr1, h1, c1⟩ := disableBody_covers R V s fp
      obtain ⟨tr2, h2, c2⟩ := ih (FpVmCallDisableFakePagesBody R V s fp)
      refine ⟨tr1 ++ tr2, ?_, coversWritesP_append c1 c2⟩
      show (t.foldl (FpVmCallDisableFakePagesBody R V)
          (FpVmCallDisableFakePagesBody R V s fp)).trace = s.trace ++ (tr1 ++ tr2)
      rw [h2, h1, List.append_assoc]

/-- C7 (counterexample).  Handling a translation-miss violation for the
registered page in s0 performs two EPT-entry writes (a permission-state
transition to Direct-but-execute-denied) and returns with no global
invalidation at all: the emitted effect trace has no invept event. -/
theorem C7_counterexample :
    (FpHandleEptViolation s0 qMiss 0 0x5000).trace
        = [Event.eptWrite 5, Event.eptWrite 5] ∧
    ¬ coversWritesP [Event.eptWrite 5, Event.eptWrite 5] :=
  ⟨rfl, by simp [coversWritesP]⟩

/-- C7 (amended).  The permission transitions performed by Enable,
Disable and the single-step trap handler are each followed by a global
invalidation (UtilInveptGlobal) before the operation returns; but the
transitions FpHandleEptViolation performs inline (translation-miss
reset, ReadWriteOverride, and resynchronized ExecuteOnly) are not:
the violation dispatcher emits no invalidation at all. -/
theorem C7_invalidation :
    (∀ s : State, ∃ tr, (FpVmCallEnableFakePages s).trace = s.trace ++ tr ∧
        coversWritesP tr) ∧
    (∀ s : State, ∃ tr, (FpVmCallDisableFakePages s).trace = s.trace ++ tr ∧
        coversWritesP tr) ∧
    (∀ s : State, ∃ tr, (FpHandleMonitorTrapFlag s).trace = s.trace ++ tr ∧
        coversWritesP tr) ∧
    (∀ (s : State) (q : EptViolationQualification) (fva fpa : Nat),
        ∃ tr, (FpHandleEptViolation s q fva fpa).trace = s.trace ++ tr ∧
          Event.invept ∉ tr) := by
  refine ⟨?_, ?_, ?_, ?_⟩
  · intro s
    obtain ⟨tr, h, c⟩ := enable_fold_covers s.guest_cr3 s.cr3 s.all_fp_data
      { s with cr0 := { wp := false, other := s.cr0.other } }
    exact ⟨tr, h, c⟩
  · intro s
    obtain ⟨tr, h, c⟩ := disable_fold_covers s.guest_cr3 s.cr3 s.all_fp_data
      { s with cr0 := { wp := false, other := s.cr0.other } }
    exact ⟨tr, h, c⟩
  · intro s
    by_cases hact : FppIsFuActive s
    · rcases hl : s.last_fp_data with _ | fp
      · refine ⟨[], ?_, trivial⟩
        simp [FpHandleMonitorTrapFlag, hact, FppRestoreLastFakePageData, hl]
      · refine ⟨[Event.eptWrite (UtilPfnFromPa (s.paFromVa fp.target_cr3 fp.patch_address)),
                Event.eptWrite (UtilPfnFromPa (s.paFromVa fp.target_cr3 fp.patch_address)),
                Event.eptWrite (UtilPfnFromPa (s.paFromVa fp.target_cr3 fp.patch_address)),
                Event.invept], ?_, by simp [coversWritesP]⟩
        simp [FpHandleMonitorTrapFlag, hact, FppRestoreLastFakePageData, hl,
          enableForExec_trace]
    · rcases hl : s.last_fp_data with _ | fp
      · refine ⟨[], ?_, trivial⟩
        simp [FpHandleMonitorTrapFlag, hact, FppRestoreLastFakePageData, hl]
      · refine ⟨[Event.eptWrite (UtilPfnFromPa (s.paFromVa fp.target_cr3 fp.patch_address)),
                Event.eptWrite (UtilPfnFromPa (s.paFromVa fp.target_cr3 fp.patch_address)),
                Event.eptWrite (UtilPfnFromPa (s.paFromVa fp.target_cr3 fp.patch_address)),
                Event.invept], ?_, by simp [coversWritesP]⟩
        simp [FpHandleMonitorTrapFlag, hact, FppRestoreLastFakePageData, hl,
          enableForExec_trace]
  · intro s q fva fpa
    simp only [FpHandleEptViolation]
    by_cases hact : FppIsFuActive s
    case neg =>
      refine ⟨[], ?_, by simp⟩
      simp [hact]
    rcases hfind : FppFindFakePageDataByPPage s.all_fp_data fpa with _ | fp
    · refine ⟨[], ?_, by simp⟩
      simp [hact, hfind]
    · simp only [hact, hfind, Bool.not_true, Bool.false_eq_true, if_false]
      by_cases hq : q.caused_by_translation = true
      · simp only [hq, Bool.not_true, Bool.false_eq_true, if_false]
        refine ⟨[Event.eptWrite (UtilPfnFromPa fp.pa_base_for_rw),
                Event.eptWrite (UtilPfnFromPa fp.pa_base_for_rw),
                Event.eptWrite (UtilPfnFromPa fp.pa_base_for_rw),
                Event.eptWrite (UtilPfnFromPa fp.pa_base_for_rw)], ?_, by simp⟩
        split <;> (try split) <;> simp
      · simp only [hq, Bool.not_false, if_true]
        refine ⟨[Event.eptWrite (UtilPfnFromPa fp.pa_base_for_rw),
                Event.eptWrite (UtilPfnFromPa fp.pa_base_for_rw)], ?_, by simp⟩
        simp

theorem create_all_fp_data (s : State) (p : ApimonCreateShadowParameters) :
    (FppCreateFakePageData s p).1.all_fp_data = s.all_fp_data := by
  rcases h : FppFindFakePageDataByPage s.all_fp_data s.guest_cr3 p.start_address with _ | r <;>
    simp [FppCreateFakePageData, h]

/-- C9.  Every operation that temporarily switches CR3 restores the prior
CR3 value before returning, on every path: Create's parameter/page
sampling, Enable's and Disable's byte copies, the violation dispatcher's
resynchronization copy, and the trap handler's diagnostic read; Enable
and Disable additionally restore the saved CR0. -/
theorem C9_context_restored :
    (∀ (s : State) (p : ApimonCreateShadowParameters),
        (FppCreateFakePageData s p).1.cr3 = s.cr3) ∧
    (∀ s : State, (FpVmCallEnableFakePages s).cr3 = s.cr3 ∧
        (FpVmCallEnableFakePages s).cr0 = s.cr0) ∧
    (∀ s : State, (FpVmCallDisableFakePages s).cr3 = s.cr3 ∧
        (FpVmCallDisableFakePages s).cr0 = s.cr0) ∧
    (∀ (s : State) (q : EptViolationQualification) (fva fpa : Nat),
        (FpHandleEptViolation s q fva fpa).cr3 = s.cr3) ∧
    (∀ s : State, (FpHandleMonitorTrapFlag s).cr3 = s.cr3) := by
  refine ⟨?_, ?_, ?_, ?_, ?_⟩
  · intro s p
    rcases h : FppFindFakePageDataByPage s.all_fp_data s.guest_cr3 p.start_address with _ | r <;>
      simp [FppCreateFakePageData, h]
  · exact fun s => ⟨enable_cr3 s, enable_cr0 s⟩
  · exact fun s => ⟨disable_cr3 s, disable_cr0 s⟩
  · intro s q fva fpa
    simp only [FpHandleEptViolation]
    by_cases hact : FppIsFuActive s
    case neg => simp [hact]
    rcases hfind : FppFindFakePageDataByPPage s.all_fp_data fpa with _ | fp
    · simp [hact, hfind]
    · simp only [hact, hfind, Bool.not_true, Bool.false_eq_true, if_false]
      by_cases hq : q.caused_by_translation = true
      · simp only [hq, Bool.not_true, Bool.false_eq_true, if_false]
        split <;> (try split) <;> simp
      · simp [hq]
  · intro s
    by_cases hact : FppIsFuActive s <;>
      rcases hl : s.last_fp_data with _ | fp <;>
        simp [FpHandleMonitorTrapFlag, hact, FppRestoreLastFakePageData, hl]

/-- C10.  The two VM-exit handlers never change the registry (the list of
entries, hence every entry's fields), guest memory, or the shadow-page
allocator; the trap handler also leaves shadow contents untouched.  The
registry is mutated only by FpVmCallCreateFakePage, which appends exactly
the entry Create built, and by FpVmCallDeleteFakePages, which keeps
exactly the entries of other address spaces; Enable and Disable leave the
registry unchanged. -/
theorem C10_registry_frame :
    (∀ (s : State) (q : EptViolationQualification) (fva fpa : Nat),
        (FpHandleEptViolation s q fva fpa).all_fp_data = s.all_fp_data ∧
        (FpHandleEptViolation s q fva fpa).mem = s.mem ∧
        (FpHandleEptViolation s q fva fpa).next_page_id = s.next_page_id) ∧
    (∀ s : State,
        (FpHandleMonitorTrapFlag s).all_fp_data = s.all_fp_data ∧
        (FpHandleMonitorTrapFlag s).mem = s.mem ∧
        (FpHandleMonitorTrapFlag s).shadow = s.shadow ∧
        (FpHandleMonitorTrapFlag s).next_page_id = s.next_page_id) ∧
    (∀ s : State, (FpVmCallEnableFakePages s).all_fp_data = s.all_fp_data) ∧
    (∀ s : State, (FpVmCallDisableFakePages s).all_fp_data = s.all_fp_data) ∧
    (∀ (s : State) (p : ApimonCreateShadowParameters),
        (FpVmCallCreateFakePage s p).1.all_fp_data
          = s.all_fp_data ++ [(FppCreateFakePageData s p).2]) ∧
    (∀ (s : State) (fp : FakePageData),
        fp ∈ (FpVmCallDeleteFakePages s).all_fp_data ↔
          fp ∈ s.all_fp_data ∧ fp.target_cr3 ≠ s.guest_cr3) := by
  refine ⟨?_, ?_, ?_, ?_, ?_, ?_⟩
  · intro s q fva fpa
    simp only [FpHandleEptViolation]
    by_cases hact : FppIsFuActive s
    case neg => simp [hact]
    rcases hfind : FppFindFakePageDataByPPage s.all_fp_data fpa with _ | fp
    · simp [hact, hfind]
    · simp only [hact, hfind, Bool.not_true, Bool.false_eq_true, if_false]
      by_cases hq : q.caused_by_translation = true
      · simp only [hq, Bool.not_true, Bool.false_eq_true, if_false]
        split <;> (try split) <;> simp
      · simp [hq]
  · intro s
    by_cases hact : FppIsFuActive s <;>
      rcases hl : s.last_fp_data with _ | fp <;>
        simp [FpHandleMonitorTrapFlag, hact, FppRestoreLastFakePageData, hl]
  · exact enable_all_fp_data
  · exact disable_all_fp_data
  · intro s p
    simp [FpVmCallCreateFakePage, create_all_fp_data]
  · intro s fp
    simp [FpVmCallDeleteFakePages, List.mem_filter, bne_iff_ne]

/-- C8 (code bug).  SaveCpuinfo never completes, for any host CPUID map:
after the leaf-0 record is pushed into the vector with std::move(cpu0),
the standard-leaf loop bound reads cpu0->cpui[0] through the moved-from
(null) unique_ptr — an unconditional machine fault — so the CPUID cache
the claim describes is never initialized and no lookup can ever return a
captured tuple. -/
theorem C8_savecpuinfo_null_deref (cpuid : Nat → Nat → Nat × Nat × Nat × Nat) :
    SaveCpuinfo cpuid = none := rfl

end FuHv
